import Mathlib

/-!
Shallow embedding of the appointment/availability scheduling core of a
nutrition-practice backend (FastAPI routes over SQLModel entities).

Times of day are minutes since midnight (Nat); calendar dates are day
numbers with day 0 a Monday, so `weekday` follows the same 0 = Monday
convention as Python's date.weekday(). The database session becomes an
explicit `State` value; each route handler becomes a function
State -> ... -> Except ApiError State, an error meaning the handler
raised before any write — either an HTTPException with a specific
reason, or (InternalError) an exception the route does not catch —
leaving the state unchanged. Wall-clock reads (datetime.now, the
created_at/updated_at stamps) become explicit `now` / `today`
parameters.

One crud helper fails unconditionally: get_availabilities_by_date_range
passes a plain Python tuple as the second argument of sqlalchemy's or_,
which or_ rejects at expression-construction time with ArgumentError on
every call, before touching any data. Neither appointment route catches
it (only email sending is wrapped in try/except), so every request that
reaches the availability stage ends in an unhandled error with no
write. The model keeps this failure; the stages behind it (the
is_available loop, OutsideAvailability, the insert) are embedded as the
dead code they are.
-/

namespace NutriSched

/-- Python date.weekday() with day 0 chosen to be a Monday. -/
def weekday (d : Nat) : Nat := d % 7

/-- datetime.combine(date, time) comparison: Python datetimes compare
lexicographically by (date, time-of-day). -/
def dtLt (a b : Nat × Nat) : Bool :=
  decide (a.1 < b.1) || (a.1 == b.1 && decide (a.2 < b.2))

inductive UserType
  | client
  | nutritionist
  | admin
  deriving DecidableEq

inductive AppointmentStatus
  | scheduled
  | cancelled
  | completed
  deriving DecidableEq

/-- models.User, restricted to the fields the scheduling core reads. -/
structure User where
  id : Nat
  user_type : UserType
  deriving DecidableEq

/-- models.Appointment (table row). -/
structure Appointment where
  id : Nat
  client_id : Nat
  nutritionist_id : Nat
  date : Nat
  start_time : Nat
  end_time : Nat
  status : AppointmentStatus
  notes : Option String
  updated_at : Nat
  deriving DecidableEq

/-- models.Availability (table row). -/
structure Availability where
  id : Nat
  nutritionist_id : Nat
  day_of_week : Option Nat
  start_time : Nat
  end_time : Nat
  is_recurring : Bool
  specific_date : Option Nat
  updated_at : Nat
  deriving DecidableEq

/-- models.AppointmentCreate: request body for POST /appointments.
`status` is inherited from AppointmentBase with default SCHEDULED and is
copied into the created row by Appointment.model_validate. -/
structure AppointmentCreate where
  nutritionist_id : Nat
  date : Nat
  start_time : Nat
  end_time : Nat
  status : AppointmentStatus := AppointmentStatus.scheduled
  notes : Option String := none
  deriving DecidableEq

/-- models.AppointmentUpdate: request body for PATCH /appointments/id.
`none` models a field absent from the request (pydantic exclude_unset). -/
structure AppointmentUpdate where
  date : Option Nat := none
  start_time : Option Nat := none
  end_time : Option Nat := none
  status : Option AppointmentStatus := none
  notes : Option String := none
  deriving DecidableEq

/-- models.AvailabilityCreate (= AvailabilityBase): request body for
POST /availability. start_time/end_time are required fields. -/
structure AvailabilityCreate where
  day_of_week : Option Nat := none
  start_time : Nat
  end_time : Nat
  is_recurring : Bool := true
  specific_date : Option Nat := none
  deriving DecidableEq

/-- models.AvailabilityUpdate (= AvailabilityBase): start_time/end_time
are required (always set); the optional fields are `none` when absent
from the request (pydantic exclude_unset keeps the stored value then). -/
structure AvailabilityUpdate where
  day_of_week : Option Nat := none
  start_time : Nat
  end_time : Nat
  is_recurring : Option Bool := none
  specific_date : Option Nat := none
  deriving DecidableEq

/-- The database contents the scheduling core reads and writes. -/
structure State where
  users : List User
  appointments : List Appointment
  availabilities : List Availability
  deriving DecidableEq

/-- The rejection reasons of the validation taxonomy, one per distinct
HTTPException site of the modelled routes, plus InternalError for an
exception no route handler catches (an HTTP 500): concretely, the
sqlalchemy ArgumentError that get_availabilities_by_date_range raises
on every call. -/
inductive ApiError
  | NotFound
  | Forbidden
  | InvalidRange
  | InThePast
  | SlotBooked
  | OutsideAvailability
  | MissingRuleField
  | AlreadyCancelled
  | InternalError
  deriving DecidableEq

/-- crud.get_user_by_id. -/
def get_user_by_id (users : List User) (user_id : Nat) : Option User :=
  users.find? (fun u => u.id == user_id)

/-- crud.get_appointments_by_date_range: date-window filter plus the
optional nutritionist/client/status filters. (Result ordering is
irrelevant to every caller modelled here and is dropped.) -/
def get_appointments_by_date_range (appts : List Appointment)
    (nutritionist_id : Option Nat) (client_id : Option Nat)
    (start_date end_date : Nat) (status : Option AppointmentStatus) :
    List Appointment :=
  appts.filter (fun a =>
    decide (start_date ≤ a.date) && decide (a.date ≤ end_date)
    && (match nutritionist_id with
        | some n => a.nutritionist_id == n
        | none => true)
    && (match client_id with
        | some c => a.client_id == c
        | none => true)
    && (match status with
        | some st => a.status == st
        | none => true))

/-- crud.get_availabilities_by_date_range: the source passes a plain
Python tuple — not an and_(...) — as the second argument of sqlalchemy's
or_, and or_ rejects a tuple at expression-construction time with
ArgumentError. This happens on every call, before the statement is
executed and independent of the data, so the helper never returns a
list; the model returns the failure unconditionally. -/
def get_availabilities_by_date_range (_avails : List Availability)
    (_nutritionist_id : Nat) (_start_date _end_date : Nat) :
    Except ApiError (List Availability) :=
  Except.error ApiError.InternalError

/-- The route guard "not nutritionist or nutritionist.user_type !=
UserType.NUTRITIONIST", stated positively on the lookup result. -/
def nutritionistCheck : Option User → Bool
  | none => false
  | some n => n.user_type == UserType.nutritionist

/-- Whether the target id resolves to an existing user of role
nutritionist in the given state. -/
def nutritionistOk (st : State) (nutritionist_id : Nat) : Bool :=
  nutritionistCheck (get_user_by_id st.users nutritionist_id)

/-- The three-clause conflict condition of the create/update routes,
verbatim: start inside existing, or end inside existing, or candidate
containing existing. Arguments: candidate [s1, e1), existing [s2, e2). -/
def conflict3 (s1 e1 s2 e2 : Nat) : Bool :=
  (decide (s1 ≥ s2) && decide (s1 < e2))
  || (decide (e1 > s2) && decide (e1 ≤ e2))
  || (decide (s1 ≤ s2) && decide (e1 ≥ e2))

/-- The create route's conflict loop over the fetched appointments. -/
def scheduledConflict (existing : List Appointment) (s e : Nat) : Bool :=
  existing.any (fun a => conflict3 s e a.start_time a.end_time)

/-- The update route's conflict loop: identical, but skipping the
appointment being updated. -/
def scheduledConflictExcluding (existing : List Appointment)
    (excluded_id : Nat) (s e : Nat) : Bool :=
  existing.any (fun a =>
    a.id != excluded_id && conflict3 s e a.start_time a.end_time)

/-- One iteration of the availability loop: the rule applies to the date
(recurring with matching weekday, or one-off with matching date). -/
def availMatches (av : Availability) (wd : Nat) (d : Nat) : Bool :=
  (av.is_recurring && av.day_of_week == some wd)
  || (!av.is_recurring && av.specific_date == some d)

/-- The containment test of the availability loop: the candidate sits
fully inside the rule's window. -/
def availContains (av : Availability) (s e : Nat) : Bool :=
  decide (s ≥ av.start_time) && decide (e ≤ av.end_time)

/-- The is_available loop of the create/update routes. -/
def is_available (avails : List Availability) (wd : Nat) (d : Nat)
    (s e : Nat) : Bool :=
  avails.any (fun av => availMatches av wd d && availContains av s e)

/-- routes/appointments.create_appointment: the ordered checks
(nutritionist role, time range, future, conflict), then the
availability fetch — which raises on every call, so the remainder
(the is_available loop, OutsideAvailability, the insert performed by
crud.create_appointment with status copied from the request body and
created_at/updated_at stamped to today) is dead code, embedded here as
written but unreachable. -/
def create_appointment (st : State) (current_user : User)
    (inp : AppointmentCreate) (now : Nat × Nat) (new_id : Nat)
    (today : Nat) : Except ApiError State :=
  let nutritionist := get_user_by_id st.users inp.nutritionist_id
  if !(nutritionistCheck nutritionist) then
    Except.error ApiError.NotFound
  else if inp.start_time ≥ inp.end_time then
    Except.error ApiError.InvalidRange
  else if dtLt (inp.date, inp.start_time) now then
    Except.error ApiError.InThePast
  else
    let existing := get_appointments_by_date_range st.appointments
      (some inp.nutritionist_id) none inp.date inp.date
      (some AppointmentStatus.scheduled)
    if scheduledConflict existing inp.start_time inp.end_time then
      Except.error ApiError.SlotBooked
    else
      match get_availabilities_by_date_range st.availabilities
          inp.nutritionist_id inp.date inp.date with
      | Except.error e => Except.error e
      | Except.ok avails =>
        if !(is_available avails (weekday inp.date) inp.date
              inp.start_time inp.end_time) then
          Except.error ApiError.OutsideAvailability
        else
          Except.ok
            ⟨st.users,
             st.appointments ++
               [⟨new_id, current_user.id, inp.nutritionist_id, inp.date,
                 inp.start_time, inp.end_time, inp.status, inp.notes,
                 today⟩],
             st.availabilities⟩

/-- crud.update_appointment's sqlmodel_update with exclude_unset: absent
fields keep the stored value, updated_at is stamped to today. -/
def applyUpdate (a : Appointment) (inp : AppointmentUpdate)
    (today : Nat) : Appointment :=
  ⟨a.id, a.client_id, a.nutritionist_id,
   inp.date.getD a.date,
   inp.start_time.getD a.start_time,
   inp.end_time.getD a.end_time,
   inp.status.getD a.status,
   (match inp.notes with
    | some s => some s
    | none => a.notes),
   today⟩

/-- The state after crud.update_appointment rewrites the row. -/
def stateWithUpdated (st : State) (appointment_id : Nat)
    (inp : AppointmentUpdate) (today : Nat) : State :=
  ⟨st.users,
   st.appointments.map (fun a =>
     if a.id == appointment_id then applyUpdate a inp today else a),
   st.availabilities⟩

/-- routes/appointments.update_appointment: lookup, permission check,
then — only when any of date/start_time/end_time is present in the body —
the same range/future/conflict checks as creation (conflict check
excluding the appointment's own id) followed by the availability fetch,
which raises on every call, so a date/time update can never complete;
when none of the three fields is present, the validation block is
skipped entirely and the unconditional crud.update_appointment write
runs. -/
def update_appointment (st : State) (current_user : User)
    (appointment_id : Nat) (inp : AppointmentUpdate) (now : Nat × Nat)
    (today : Nat) : Except ApiError State :=
  match st.appointments.find? (fun a => a.id == appointment_id) with
  | none => Except.error ApiError.NotFound
  | some appointment =>
    if current_user.id ≠ appointment.client_id ∧
        current_user.id ≠ appointment.nutritionist_id ∧
        current_user.user_type ≠ UserType.admin then
      Except.error ApiError.Forbidden
    else if inp.date.isSome || inp.start_time.isSome || inp.end_time.isSome then
      let new_date := inp.date.getD appointment.date
      let new_start_time := inp.start_time.getD appointment.start_time
      let new_end_time := inp.end_time.getD appointment.end_time
      if new_start_time ≥ new_end_time then
        Except.error ApiError.InvalidRange
      else if dtLt (new_date, new_start_time) now then
        Except.error ApiError.InThePast
      else
        let existing := get_appointments_by_date_range st.appointments
          (some appointment.nutritionist_id) none new_date new_date
          (some AppointmentStatus.scheduled)
        if scheduledConflictExcluding existing appointment.id
            new_start_time new_end_time then
          Except.error ApiError.SlotBooked
        else
          match get_availabilities_by_date_range st.availabilities
              appointment.nutritionist_id new_date new_date with
          | Except.error e => Except.error e
          | Except.ok avails =>
            if !(is_available avails (weekday new_date) new_date
                  new_start_time new_end_time) then
              Except.error ApiError.OutsideAvailability
            else
              Except.ok (stateWithUpdated st appointment_id inp today)
    else
      Except.ok (stateWithUpdated st appointment_id inp today)

/-- crud.cancel_appointment's row rewrite: status CANCELLED, updated_at
stamped to today. -/
def setCancelled (a : Appointment) (today : Nat) : Appointment :=
  ⟨a.id, a.client_id, a.nutritionist_id, a.date, a.start_time, a.end_time,
   AppointmentStatus.cancelled, a.notes, today⟩

/-- routes/appointments.cancel_appointment: lookup, permission check,
already-cancelled guard, then crud.cancel_appointment. -/
def cancel_appointment (st : State) (current_user : User)
    (appointment_id : Nat) (today : Nat) : Except ApiError State :=
  match st.appointments.find? (fun a => a.id == appointment_id) with
  | none => Except.error ApiError.NotFound
  | some appointment =>
    if current_user.id ≠ appointment.client_id ∧
        current_user.id ≠ appointment.nutritionist_id ∧
        current_user.user_type ≠ UserType.admin then
      Except.error ApiError.Forbidden
    else if appointment.status = AppointmentStatus.cancelled then
      Except.error ApiError.AlreadyCancelled
    else
      Except.ok
        ⟨st.users,
         st.appointments.map (fun a =>
           if a.id == appointment_id then setCancelled a today else a),
         st.availabilities⟩

/-- routes/availability.create_availability: role check, time-range
check, required-field checks (day_of_week for recurring, specific_date
for one-off), then crud.create_availability. -/
def create_availability (st : State) (current_user : User)
    (inp : AvailabilityCreate) (new_id : Nat) (today : Nat) :
    Except ApiError State :=
  if current_user.user_type ≠ UserType.nutritionist then
    Except.error ApiError.Forbidden
  else if inp.start_time ≥ inp.end_time then
    Except.error ApiError.InvalidRange
  else if inp.is_recurring && inp.day_of_week.isNone then
    Except.error ApiError.MissingRuleField
  else if !inp.is_recurring && inp.specific_date.isNone then
    Except.error ApiError.MissingRuleField
  else
    Except.ok
      ⟨st.users, st.appointments,
       st.availabilities ++
         [⟨new_id, current_user.id, inp.day_of_week, inp.start_time,
           inp.end_time, inp.is_recurring, inp.specific_date, today⟩]⟩

/-- crud.update_availability's sqlmodel_update with exclude_unset
(start_time/end_time are required fields of AvailabilityUpdate and are
always written). -/
def applyAvailabilityUpdate (av : Availability) (inp : AvailabilityUpdate)
    (today : Nat) : Availability :=
  ⟨av.id, av.nutritionist_id,
   (match inp.day_of_week with
    | some w => some w
    | none => av.day_of_week),
   inp.start_time, inp.end_time,
   inp.is_recurring.getD av.is_recurring,
   (match inp.specific_date with
    | some d => some d
    | none => av.specific_date),
   today⟩

/-- routes/availability.update_availability: lookup, ownership check,
time-range check on the (always present) new times, then
crud.update_availability — no re-check of the rule-shape fields. -/
def update_availability (st : State) (current_user : User)
    (availability_id : Nat) (inp : AvailabilityUpdate) (today : Nat) :
    Except ApiError State :=
  match st.availabilities.find? (fun av => av.id == availability_id) with
  | none => Except.error ApiError.NotFound
  | some availability =>
    if availability.nutritionist_id ≠ current_user.id then
      Except.error ApiError.Forbidden
    else if inp.start_time ≥ inp.end_time then
      Except.error ApiError.InvalidRange
    else
      Except.ok
        ⟨st.users, st.appointments,
         st.availabilities.map (fun av =>
           if av.id == availability_id then
             applyAvailabilityUpdate av inp today
           else av)⟩

/-- Projection of a handler result onto its rejection reason. -/
def resultError : Except ApiError State → Option ApiError
  | Except.ok _ => none
  | Except.error e => some e

/-- Modelled from the spec: the single half-open overlap test that the
spec asserts is equivalent to the three-clause conflict condition. -/
def halfOpenOverlap (s1 e1 s2 e2 : Nat) : Bool :=
  decide (s1 < e2) && decide (s2 < e1)

/-- Modelled from the spec (checks 4 of the ordered validation): some
Scheduled appointment of the target nutritionist on the request's date
satisfies the three-clause conflict condition. -/
def specConflictExists (st : State) (inp : AppointmentCreate) : Bool :=
  st.appointments.any (fun a =>
    a.nutritionist_id == inp.nutritionist_id && a.date == inp.date
    && a.status == AppointmentStatus.scheduled
    && conflict3 inp.start_time inp.end_time a.start_time a.end_time)

/-- Modelled from the spec's ordered check list, truncated to what the
code reaches: checks 1-4 (nutritionist role, time range, future,
conflict) in order with the first failing check alone determining the
rejection reason, stated directly over the full appointment table; the
spec's fifth check (availability containment) is unreachable in the
code — past check 4, every request ends in the unconditional failure of
the availability fetch — so the chain ends in InternalError instead of
OutsideAvailability-or-acceptance. -/
def specFirstFailure (st : State) (inp : AppointmentCreate)
    (now : Nat × Nat) : Option ApiError :=
  if !(nutritionistOk st inp.nutritionist_id) then some ApiError.NotFound
  else if inp.start_time ≥ inp.end_time then some ApiError.InvalidRange
  else if dtLt (inp.date, inp.start_time) now then some ApiError.InThePast
  else if specConflictExists st inp then some ApiError.SlotBooked
  else some ApiError.InternalError

/-! ## Concrete fixtures -/

def nutriUser : User := ⟨1, UserType.nutritionist⟩

def clientUser : User := ⟨2, UserType.client⟩

/-- A nutritionist (id 1) with one recurring Monday availability window
08:00–18:00 and one Scheduled appointment 10:00–11:00 (minutes 600–660)
on day 7 (a Monday), booked by client id 2. -/
def bookedState : State :=
  ⟨[nutriUser, clientUser],
   [⟨100, 2, 1, 7, 600, 660, AppointmentStatus.scheduled, none, 0⟩],
   [⟨10, 1, some 0, 480, 1080, true, none, 0⟩]⟩

/-- A nutritionist (id 1) with no availability rules at all. -/
def emptyAvailState : State :=
  ⟨[nutriUser, clientUser], [], []⟩

/-- Same fixture as `bookedState` but with the appointment already
Cancelled. -/
def cancelledState : State :=
  ⟨[nutriUser, clientUser],
   [⟨100, 2, 1, 7, 600, 660, AppointmentStatus.cancelled, none, 0⟩],
   [⟨10, 1, some 0, 480, 1080, true, none, 0⟩]⟩

/-- The spec's exactly-one rule-shape invariant for availability rules,
as a boolean: the selected field is set and the other is not. -/
def exactlyOneRuleField (av : Availability) : Bool :=
  (av.is_recurring && av.day_of_week.isSome && av.specific_date.isNone)
  || (!av.is_recurring && av.specific_date.isSome && av.day_of_week.isNone)

/-- The weaker shape property the create route actually enforces: the
field selected by is_recurring is set (the other may be set too). -/
def selectedFieldSet (av : Availability) : Bool :=
  if av.is_recurring then av.day_of_week.isSome else av.specific_date.isSome

/-- A nutritionist with no data at all. -/
def soloNutriState : State := ⟨[nutriUser], [], []⟩

/-- A nutritionist with a single recurring Tuesday rule. -/
def recurringRuleState : State :=
  ⟨[nutriUser], [], [⟨10, 1, some 1, 540, 1020, true, none, 0⟩]⟩

/-- One accepted-or-rejected API call against the appointment routes. -/
inductive Op
  | createOp (current_user : User) (inp : AppointmentCreate)
      (now : Nat × Nat) (new_id : Nat) (today : Nat)
  | updateOp (current_user : User) (appointment_id : Nat)
      (inp : AppointmentUpdate) (now : Nat × Nat) (today : Nat)
  | cancelOp (current_user : User) (appointment_id : Nat) (today : Nat)
  deriving DecidableEq

/-- Dispatch one operation to its route handler. -/
def step (st : State) : Op → Except ApiError State
  | Op.createOp u inp now new_id today =>
      create_appointment st u inp now new_id today
  | Op.updateOp u aid inp now today =>
      update_appointment st u aid inp now today
  | Op.cancelOp u aid today => cancel_appointment st u aid today

/-- Run a sequence of operations, requiring every one to be accepted. -/
def run (st : State) : List Op → Option State
  | [] => some st
  | op :: rest =>
    match step st op with
    | Except.ok st1 => run st1 rest
    | Except.error _ => none

/-- Two distinct Scheduled appointments of one nutritionist on one date
with overlapping half-open intervals exist in the state. -/
def overlapViolation (st : State) : Bool :=
  st.appointments.any (fun a => st.appointments.any (fun b =>
    a.id != b.id && a.nutritionist_id == b.nutritionist_id
    && a.date == b.date
    && a.status == AppointmentStatus.scheduled
    && b.status == AppointmentStatus.scheduled
    && decide (a.start_time < b.end_time)
    && decide (b.start_time < a.end_time)))

/-- The run is fully accepted and its final state violates the
no-overlap invariant. -/
def runViolates (st : State) (ops : List Op) : Bool :=
  match run st ops with
  | some st1 => overlapViolation st1
  | none => false

/-- Nutritionist 1 with a Monday 08:00–18:00 recurring window and two
database rows for the same client, nutritionist and date: a Scheduled
10:00–11:00 appointment (id 100) and a Cancelled 10:30–11:30 one
(id 101). The pair satisfies the no-overlap invariant (only one of the
two is Scheduled); rows like these exist without any route acceptance —
the repository's own tests insert appointments directly through the
session. -/
def c1InitState : State :=
  ⟨[nutriUser, clientUser],
   [⟨100, 2, 1, 7, 600, 660, AppointmentStatus.scheduled, none, 0⟩,
    ⟨101, 2, 1, 7, 630, 690, AppointmentStatus.cancelled, none, 0⟩],
   [⟨10, 1, some 0, 480, 1080, true, none, 0⟩]⟩

/-- A single accepted operation: PATCH the Cancelled appointment back to
status Scheduled. The body carries no date/time field, so the route
skips the whole validation block and writes the row unconditionally. -/
def c1Ops : List Op :=
  [Op.updateOp clientUser 101
     ⟨none, none, none, some AppointmentStatus.scheduled, none⟩ (0, 0) 0]

/-- Pairwise slot compatibility: when two rows are distinct, belong to
the same nutritionist and date and are both Scheduled, their half-open
intervals do not overlap. -/
def compat (a b : Appointment) : Prop :=
  a.id ≠ b.id → a.nutritionist_id = b.nutritionist_id → a.date = b.date →
  a.status = AppointmentStatus.scheduled →
  b.status = AppointmentStatus.scheduled →
  ¬(a.start_time < b.end_time ∧ b.start_time < a.end_time)

/-- The spec's invariant: all pairs of rows are slot-compatible. -/
def SchedOverlapFree (l : List Appointment) : Prop :=
  ∀ a ∈ l, ∀ b ∈ l, compat a b

/-- Appointment ids are pairwise distinct (the database primary key). -/
def DistinctIds (l : List Appointment) : Prop :=
  (l.map Appointment.id).Nodup

/-- The inductive invariant: primary-key uniqueness plus the spec's
no-overlap property. -/
def SchedInvariant (st : State) : Prop :=
  DistinctIds st.appointments ∧ SchedOverlapFree st.appointments

instance compatDecidable (a b : Appointment) : Decidable (compat a b) :=
  decidable_of_iff
    (a.id ≠ b.id → a.nutritionist_id = b.nutritionist_id →
     a.date = b.date → a.status = AppointmentStatus.scheduled →
     b.status = AppointmentStatus.scheduled →
     a.start_time < b.end_time → b.start_time < a.end_time → False)
    (by unfold compat; tauto)

instance schedOverlapFreeDecidable (l : List Appointment) :
    Decidable (SchedOverlapFree l) :=
  inferInstanceAs (Decidable (∀ a ∈ l, ∀ b ∈ l, compat a b))

instance schedInvariantDecidable (st : State) :
    Decidable (SchedInvariant st) :=
  inferInstanceAs (Decidable
    ((st.appointments.map Appointment.id).Nodup ∧
     SchedOverlapFree st.appointments))

/-- Side condition under which the routes do preserve the invariant:
update bodies do not carry the status field. Creates and cancels are
unconstrained (a create is in fact never accepted at all — the
availability fetch fails on every call). -/
def opGood : Op → Bool
  | Op.updateOp _ _ inp _ _ => inp.status.isNone
  | _ => true

/-! ## Lemmas and claim theorems -/

/-! ## Helper lemmas -/

lemma resultError_ite (c : Prop) [Decidable c] (e : ApiError)
    (r : Except ApiError State) :
    resultError (if c then Except.error e else r)
      = if c then some e else resultError r := by
  split <;> rfl

lemma date_window_eq (d x : Nat) :
    (decide (d ≤ x) && decide (x ≤ d)) = (x == d) := by
  rw [Bool.eq_iff_iff]
  simp only [Bool.and_eq_true, decide_eq_true_eq, beq_iff_eq]
  constructor
  · rintro ⟨h1, h2⟩
    exact le_antisymm h2 h1
  · rintro h
    exact ⟨h.ge, h.le⟩

/-- The create route's conflict stage, with the crud date-window fetch
inlined, equals the spec-side one-pass scan of the appointment table. -/
lemma scheduledConflict_route_eq (appts : List Appointment) (nid : Nat)
    (d : Nat) (s e : Nat) :
    scheduledConflict (get_appointments_by_date_range appts
      (some nid) none d d (some AppointmentStatus.scheduled)) s e
    = appts.any (fun a =>
        a.nutritionist_id == nid && a.date == d
        && a.status == AppointmentStatus.scheduled
        && conflict3 s e a.start_time a.end_time) := by
  unfold scheduledConflict get_appointments_by_date_range
  rw [List.any_filter]
  congr 1
  funext a
  rw [Bool.eq_iff_iff]
  simp only [Bool.and_eq_true, decide_eq_true_eq, beq_iff_eq,
    Bool.and_true, and_true]
  constructor
  · rintro ⟨⟨⟨⟨hd1, hd2⟩, hn⟩, hs⟩, hc⟩
    exact ⟨⟨⟨hn, le_antisymm hd2 hd1⟩, hs⟩, hc⟩
  · rintro ⟨⟨⟨hn, hd⟩, hs⟩, hc⟩
    exact ⟨⟨⟨⟨hd.ge, hd.le⟩, hn⟩, hs⟩, hc⟩

/-- The create handler's rejection reason is exactly the
first-failing-check reason of the truncated ordered chain: checks 1-4 in
order, then the unconditional failure of the availability fetch. -/
lemma createError_eq_spec (st : State) (u : User) (inp : AppointmentCreate)
    (now : Nat × Nat) (new_id : Nat) (today : Nat) :
    resultError (create_appointment st u inp now new_id today)
      = specFirstFailure st inp now := by
  simp only [create_appointment, specFirstFailure, nutritionistOk,
    specConflictExists, scheduledConflict_route_eq,
    get_availabilities_by_date_range]
  rw [resultError_ite, resultError_ite, resultError_ite, resultError_ite]
  rfl

/-- C2: for non-degenerate intervals (s1 < e1, s2 < e2) the three-clause
conflict condition of the create/update routes returns exactly the same
boolean as the single half-open overlap test s1 < e2 AND s2 < e1. -/
theorem conflict3_eq_halfOpenOverlap (s1 e1 s2 e2 : Nat)
    (h1 : s1 < e1) (h2 : s2 < e2) :
    conflict3 s1 e1 s2 e2 = halfOpenOverlap s1 e1 s2 e2 := by
  rw [Bool.eq_iff_iff]
  simp only [conflict3, halfOpenOverlap, Bool.or_eq_true, Bool.and_eq_true,
    decide_eq_true_eq]
  constructor
  · rintro ((⟨ha, hb⟩ | ⟨ha, hb⟩) | ⟨ha, hb⟩) <;> exact ⟨by omega, by omega⟩
  · rintro ⟨ha, hb⟩
    by_cases hc : s1 ≥ s2
    · exact Or.inl (Or.inl ⟨hc, ha⟩)
    · by_cases hd : e1 ≤ e2
      · exact Or.inl (Or.inr ⟨by omega, hd⟩)
      · exact Or.inr ⟨by omega, by omega⟩

/-- Witness for C2: the equivalence applied at concrete intervals. -/
theorem conflict3_eq_halfOpenOverlap_witness :
    conflict3 600 660 630 690 = halfOpenOverlap 600 660 630 690 :=
  conflict3_eq_halfOpenOverlap 600 660 630 690 (by decide) (by decide)

/-- C4: conflict detection is half-open at the boundaries. With an
existing Scheduled appointment 10:00–11:00, the conflict scan does not
flag the back-to-back candidate 11:00–12:00 nor the candidate
09:30–10:00 ending exactly at the existing start — both pass the
conflict stage of the create route and fail only later, at the broken
availability fetch (InternalError, strictly past conflict detection) —
while the overlapping candidate 10:59–11:30 is rejected as SlotBooked. -/
theorem conflict_boundary_halfopen :
    scheduledConflict (get_appointments_by_date_range
      bookedState.appointments (some 1) none 7 7
      (some AppointmentStatus.scheduled)) 660 720 = false
    ∧ scheduledConflict (get_appointments_by_date_range
      bookedState.appointments (some 1) none 7 7
      (some AppointmentStatus.scheduled)) 570 600 = false
    ∧ resultError (create_appointment bookedState clientUser
        ⟨1, 7, 660, 720, AppointmentStatus.scheduled, none⟩ (0, 0) 101 0)
      = some ApiError.InternalError
    ∧ resultError (create_appointment bookedState clientUser
        ⟨1, 7, 570, 600, AppointmentStatus.scheduled, none⟩ (0, 0) 101 0)
      = some ApiError.InternalError
    ∧ resultError (create_appointment bookedState clientUser
        ⟨1, 7, 659, 690, AppointmentStatus.scheduled, none⟩ (0, 0) 101 0)
      = some ApiError.SlotBooked := by
  decide

/-- C6 (code bug): the create route's outcome equals the ordered check
chain the code actually performs — checks 1-4 of the spec's list
(nutritionist role, time range, future, conflict) in order, the first
failing check alone determining the rejection reason, so a request that
both conflicts and lies outside availability is rejected as SlotBooked;
but the spec's fifth check never runs: every request passing checks 1-4
ends in the internal error of the availability fetch instead of
OutsideAvailability or acceptance, contradicting the spec and the
repository's own tests, which expect bookings to succeed. -/
theorem create_checks_ordered (st : State) (u : User)
    (inp : AppointmentCreate) (now : Nat × Nat) (new_id : Nat)
    (today : Nat) :
    resultError (create_appointment st u inp now new_id today)
      = specFirstFailure st inp now :=
  createError_eq_spec st u inp now new_id today

/-- Counterexample for C5: a booking whose slot starts at exactly the
current wall-clock instant is not rejected with InThePast — the route's
strict comparison (combined < now) lets a slot starting "now" through
the past-check, and the request then dies at the broken availability
fetch (InternalError, which lies strictly after the past-check), never
producing InThePast. -/
theorem inThePast_exact_now_counterexample :
    resultError (create_appointment bookedState clientUser
      ⟨1, 7, 700, 720, AppointmentStatus.scheduled, none⟩ (7, 700) 101 7)
        = some ApiError.InternalError
    ∧ resultError (create_appointment bookedState clientUser
      ⟨1, 7, 700, 720, AppointmentStatus.scheduled, none⟩ (7, 700) 101 7)
        ≠ some ApiError.InThePast := by
  decide

/-- C5 (amended): when the nutritionist and time-range checks pass, the
create route rejects with InThePast exactly when the combined
(date, start_time) is strictly earlier than the current wall-clock time;
a slot starting exactly now passes this check. -/
theorem create_inThePast_iff (st : State) (u : User)
    (inp : AppointmentCreate) (now : Nat × Nat) (new_id : Nat)
    (today : Nat)
    (hn : nutritionistOk st inp.nutritionist_id = true)
    (hr : inp.start_time < inp.end_time) :
    resultError (create_appointment st u inp now new_id today)
        = some ApiError.InThePast
      ↔ dtLt (inp.date, inp.start_time) now = true := by
  rw [createError_eq_spec]
  unfold specFirstFailure
  rw [hn]
  rw [if_neg (by simp)]
  rw [if_neg (by omega)]
  cases hdt : dtLt (inp.date, inp.start_time) now
  · rw [if_neg (by simp)]
    constructor
    · intro h
      split at h <;> simp at h
    · intro h
      exact absurd h (by simp)
  · simp

/-- Witness for C5 (amended): a slot strictly in the past is rejected
as InThePast. -/
theorem create_inThePast_iff_witness :
    resultError (create_appointment bookedState clientUser
      ⟨1, 7, 700, 720, AppointmentStatus.scheduled, none⟩ (7, 701) 101 7)
      = some ApiError.InThePast :=
  (create_inThePast_iff bookedState clientUser
    ⟨1, 7, 700, 720, AppointmentStatus.scheduled, none⟩ (7, 701) 101 7
    (by decide) (by decide)).mpr (by decide)

/-- C3 (code bug): the availability containment check is dead code. A
candidate fully nested in a published recurring window (08:00–18:00
covers 11:40–12:00) is not accepted, and a candidate of a nutritionist
with an empty rule set is not rejected with OutsideAvailability: both
requests pass checks 1-4 and then die in the unconditional failure of
crud.get_availabilities_by_date_range (a tuple passed to sqlalchemy
or_), contradicting the route's written containment loop, the spec, and
the repository's own tests, which book such slots expecting 200. -/
theorem availability_check_unreachable :
    resultError (create_appointment bookedState clientUser
      ⟨1, 7, 700, 720, AppointmentStatus.scheduled, none⟩ (0, 0) 101 0)
        = some ApiError.InternalError
    ∧ resultError (create_appointment emptyAvailState clientUser
      ⟨1, 7, 600, 660, AppointmentStatus.scheduled, none⟩ (0, 0) 101 0)
        = some ApiError.InternalError
    ∧ resultError (create_appointment emptyAvailState clientUser
      ⟨1, 7, 600, 660, AppointmentStatus.scheduled, none⟩ (0, 0) 101 0)
        ≠ some ApiError.OutsideAvailability := by
  decide

/-- C10: a SlotBooked rejection can only come from a Scheduled
appointment of the target nutritionist on the requested date — the
conflict scan never inspects the booking client's own appointments with
other nutritionists. -/
theorem slotBooked_only_target_nutritionist (st : State) (u : User)
    (inp : AppointmentCreate) (now : Nat × Nat) (new_id : Nat)
    (today : Nat)
    (h : resultError (create_appointment st u inp now new_id today)
      = some ApiError.SlotBooked) :
    ∃ a ∈ st.appointments,
      a.nutritionist_id = inp.nutritionist_id ∧ a.date = inp.date ∧
      a.status = AppointmentStatus.scheduled ∧
      conflict3 inp.start_time inp.end_time a.start_time a.end_time
        = true := by
  rw [createError_eq_spec] at h
  unfold specFirstFailure at h
  split at h
  · exact absurd h (by simp)
  · split at h
    · exact absurd h (by simp)
    · split at h
      · exact absurd h (by simp)
      · split at h
        · rename_i hcond
          unfold specConflictExists at hcond
          rw [List.any_eq_true] at hcond
          obtain ⟨a, ha, hpa⟩ := hcond
          refine ⟨a, ha, ?_⟩
          simp only [Bool.and_eq_true, beq_iff_eq] at hpa
          exact ⟨hpa.1.1.1, hpa.1.1.2, hpa.1.2, hpa.2⟩
        · simp at h

/-- Witness for C10: the SlotBooked rejection of the overlapping
candidate in the booked fixture does come from the target nutritionist's
own Scheduled appointment. -/
theorem slotBooked_only_target_nutritionist_witness :
    ∃ a ∈ bookedState.appointments,
      a.nutritionist_id = 1 ∧ a.date = 7 ∧
      a.status = AppointmentStatus.scheduled ∧
      conflict3 659 690 a.start_time a.end_time = true :=
  slotBooked_only_target_nutritionist bookedState clientUser
    ⟨1, 7, 659, 690, AppointmentStatus.scheduled, none⟩ (0, 0) 101 0
    (by decide)

/-- C7: cancelling an already-Cancelled appointment is rejected with
AlreadyCancelled — the handler errors before the crud write, so the
stored row (status and updated_at included) is untouched; cancelling a
non-Cancelled appointment always succeeds, with no availability or
conflict re-validation of any kind, rewriting exactly that row's status
and updated_at. -/
theorem cancel_idempotence_guard (st : State) (u : User)
    (appointment_id : Nat) (today : Nat) (appointment : Appointment)
    (hfind : st.appointments.find? (fun a => a.id == appointment_id)
      = some appointment)
    (hperm : u.id = appointment.client_id ∨
      u.id = appointment.nutritionist_id ∨
      u.user_type = UserType.admin) :
    (appointment.status = AppointmentStatus.cancelled →
      cancel_appointment st u appointment_id today
        = Except.error ApiError.AlreadyCancelled)
    ∧ (appointment.status ≠ AppointmentStatus.cancelled →
      cancel_appointment st u appointment_id today
        = Except.ok
          ⟨st.users,
           st.appointments.map (fun a =>
             if a.id == appointment_id then setCancelled a today else a),
           st.availabilities⟩) := by
  simp only [cancel_appointment, hfind]
  rw [if_neg (by tauto)]
  constructor
  · intro hs
    rw [if_pos hs]
  · intro hs
    rw [if_neg hs]

/-- Witness for C7: the double-cancel in the cancelled fixture is
rejected as AlreadyCancelled. -/
theorem cancel_idempotence_guard_witness :
    cancel_appointment cancelledState clientUser 100 3
      = Except.error ApiError.AlreadyCancelled :=
  (cancel_idempotence_guard cancelledState clientUser 100 3
    ⟨100, 2, 1, 7, 600, 660, AppointmentStatus.cancelled, none, 0⟩
    (by decide) (by decide)).1 (by decide)

/-- Counterexample for C8: a notes-only update of a Cancelled
appointment is accepted and rewrites the stored row (notes and
updated_at change while the status stays Cancelled) — the update route
has no is-Cancelled guard, so the claim that such updates are rejected
and leave the row unchanged is false. -/
theorem cancelled_update_accepted_counterexample :
    update_appointment cancelledState clientUser 100
      ⟨none, none, none, none, some "revised note"⟩ (0, 0) 3
      = Except.ok
        ⟨[nutriUser, clientUser],
         [⟨100, 2, 1, 7, 600, 660, AppointmentStatus.cancelled,
           some "revised note", 3⟩],
         [⟨10, 1, some 0, 480, 1080, true, none, 0⟩]⟩ := by
  rfl

/-- C8 (amended): the update route applies no status guard at all: any
authorized update of an existing appointment that leaves date,
start_time and end_time unset (for example a notes-only update) is
accepted regardless of the appointment's status — Cancelled included —
and rewrites the stored row via the unconditional crud update. -/
theorem update_no_cancelled_guard (st : State) (u : User)
    (appointment_id : Nat) (inp : AppointmentUpdate) (now : Nat × Nat)
    (today : Nat) (appointment : Appointment)
    (hfind : st.appointments.find? (fun a => a.id == appointment_id)
      = some appointment)
    (hperm : u.id = appointment.client_id ∨
      u.id = appointment.nutritionist_id ∨
      u.user_type = UserType.admin)
    (hd : inp.date = none) (hs : inp.start_time = none)
    (he : inp.end_time = none) :
    update_appointment st u appointment_id inp now today
      = Except.ok (stateWithUpdated st appointment_id inp today) := by
  simp only [update_appointment, hfind]
  rw [if_neg (by tauto)]
  rw [if_neg (by simp [hd, hs, he])]

/-- Witness for C8 (amended): the notes-only update of the Cancelled
fixture appointment goes through the unconditional crud write. -/
theorem update_no_cancelled_guard_witness :
    update_appointment cancelledState clientUser 100
      ⟨none, none, none, none, some "revised note"⟩ (0, 0) 3
      = Except.ok (stateWithUpdated cancelledState 100
          ⟨none, none, none, none, some "revised note"⟩ 3) :=
  update_no_cancelled_guard cancelledState clientUser 100
    ⟨none, none, none, none, some "revised note"⟩ (0, 0) 3
    ⟨100, 2, 1, 7, 600, 660, AppointmentStatus.cancelled, none, 0⟩
    (by decide) (by decide) rfl rfl rfl

/-- Counterexample for C9: create accepts a recurring rule that also
carries a specific_date (both selector fields set), and update accepts
flipping a recurring rule to non-recurring without supplying a
specific_date (leaving the selected field unset) — so the exactly-one
invariant holds after neither create nor update. -/
theorem availability_exactly_one_counterexample :
    (create_availability soloNutriState nutriUser
        ⟨some 2, 540, 1020, true, some 5⟩ 10 0
      = Except.ok
          ⟨[nutriUser], [], [⟨10, 1, some 2, 540, 1020, true, some 5, 0⟩]⟩
      ∧ exactlyOneRuleField ⟨10, 1, some 2, 540, 1020, true, some 5, 0⟩
        = false)
    ∧ (update_availability recurringRuleState nutriUser 10
        ⟨none, 540, 1020, some false, none⟩ 3
      = Except.ok
          ⟨[nutriUser], [], [⟨10, 1, some 1, 540, 1020, false, none, 3⟩]⟩
      ∧ selectedFieldSet ⟨10, 1, some 1, 540, 1020, false, none, 3⟩
        = false) :=
  ⟨⟨rfl, rfl⟩, rfl, rfl⟩

/-- C9 (amended): every rule accepted by the create route has the field
selected by is_recurring set (day_of_week when recurring, specific_date
when one-off); exclusivity of the two fields is not checked there, and
the update route re-validates only the time range, not the rule shape. -/
theorem availability_create_requires_selected_field (st : State)
    (u : User) (inp : AvailabilityCreate) (new_id : Nat) (today : Nat)
    (st' : State)
    (h : create_availability st u inp new_id today = Except.ok st') :
    ∀ av ∈ st'.availabilities,
      av ∈ st.availabilities ∨ selectedFieldSet av = true := by
  unfold create_availability at h
  split at h
  · exact absurd h (by simp)
  · split at h
    · exact absurd h (by simp)
    · split at h
      · exact absurd h (by simp)
      · split at h
        · exact absurd h (by simp)
        · rename_i hrole hrange hrec honeoff
          rw [Except.ok.injEq] at h
          subst h
          intro av hav
          rw [List.mem_append, List.mem_singleton] at hav
          rcases hav with hold | hnew
          · exact Or.inl hold
          · subst hnew
            right
            simp only [selectedFieldSet]
            cases hb : inp.is_recurring
            · rw [hb] at honeoff
              cases hsd : inp.specific_date
              · rw [hsd] at honeoff
                simp at honeoff
              · simp [hsd]
            · rw [hb] at hrec
              cases hdw : inp.day_of_week
              · rw [hdw] at hrec
                simp at hrec
              · simp [hdw]

/-- Witness for C9 (amended): a well-formed recurring rule accepted by
create has its day_of_week set. -/
theorem availability_create_requires_selected_field_witness :
    (⟨10, 1, some 2, 540, 1020, true, none, 0⟩ : Availability)
        ∈ soloNutriState.availabilities
      ∨ selectedFieldSet ⟨10, 1, some 2, 540, 1020, true, none, 0⟩
        = true :=
  availability_create_requires_selected_field soloNutriState nutriUser
    ⟨some 2, 540, 1020, true, none⟩ 10 0 _ (by rfl)
    ⟨10, 1, some 2, 540, 1020, true, none, 0⟩ (by decide)

/-- Counterexample for C1: from an invariant-satisfying database state
(one Scheduled 10:00–11:00 row and one Cancelled 10:30–11:30 row, same
nutritionist and date), a single accepted operation — a status-only
PATCH carrying no date/time field, which the route writes without any
slot re-validation and without touching the broken availability fetch —
resurrects the Cancelled row to Scheduled inside the occupied slot,
reaching a state with two overlapping Scheduled appointments. -/
theorem scheduled_no_overlap_counterexample :
    SchedInvariant c1InitState ∧ runViolates c1InitState c1Ops = true := by
  decide

/-- Mapping an id-preserving function over the rows leaves the id
projection unchanged. -/
lemma map_ids_eq {f : Appointment → Appointment}
    (hf : ∀ a, (f a).id = a.id) (l : List Appointment) :
    (l.map f).map Appointment.id = l.map Appointment.id := by
  rw [List.map_map]
  exact List.map_congr_left (fun a _ => hf a)

/-- compat only reads id, nutritionist, date, times and status. -/
lemma compat_congr {a a' b b' : Appointment}
    (ha1 : a'.id = a.id) (ha2 : a'.nutritionist_id = a.nutritionist_id)
    (ha3 : a'.date = a.date) (ha4 : a'.start_time = a.start_time)
    (ha5 : a'.end_time = a.end_time) (ha6 : a'.status = a.status)
    (hb1 : b'.id = b.id) (hb2 : b'.nutritionist_id = b.nutritionist_id)
    (hb3 : b'.date = b.date) (hb4 : b'.start_time = b.start_time)
    (hb5 : b'.end_time = b.end_time) (hb6 : b'.status = b.status)
    (h : compat a b) : compat a' b' := by
  intro hid hnut hdate hsa hsb hov
  rw [ha1, hb1] at hid
  rw [ha2, hb2] at hnut
  rw [ha3, hb3] at hdate
  rw [ha6] at hsa
  rw [hb6] at hsb
  rw [ha4, ha5, hb4, hb5] at hov
  exact h hid hnut hdate hsa hsb hov

lemma cancel_preserves_invariant (st : State) (u : User) (aid : Nat)
    (today : Nat) (st' : State) (hinv : SchedInvariant st)
    (h : cancel_appointment st u aid today = Except.ok st') :
    SchedInvariant st' := by
  unfold cancel_appointment at h
  split at h
  · exact absurd h (by simp)
  · rename_i appointment hfind
    split at h
    · exact absurd h (by simp)
    · split at h
      · exact absurd h (by simp)
      · rw [Except.ok.injEq] at h
        subst h
        refine ⟨?_, ?_⟩
        · unfold DistinctIds
          rw [map_ids_eq (fun a => by split <;> rfl)]
          exact hinv.1
        · intro a' ha' b' hb'
          simp only [List.mem_map] at ha' hb'
          obtain ⟨a, ha, rfl⟩ := ha'
          obtain ⟨b, hb, rfl⟩ := hb'
          by_cases hba : (a.id == aid) = true
          · intro _ _ _ hsa _
            rw [if_pos hba] at hsa
            simp [setCancelled] at hsa
          · by_cases hbb : (b.id == aid) = true
            · intro _ _ _ _ hsb
              rw [if_pos hbb] at hsb
              simp [setCancelled] at hsb
            · rw [if_neg hba, if_neg hbb]
              exact hinv.2 a ha b hb

/-- No create is ever accepted: a request surviving checks 1-4 reaches
the availability fetch, which fails on every call, so the route's
insert is unreachable. -/
lemma create_never_ok (st : State) (u : User) (inp : AppointmentCreate)
    (now : Nat × Nat) (new_id : Nat) (today : Nat) (st' : State) :
    create_appointment st u inp now new_id today ≠ Except.ok st' := by
  intro h
  simp only [create_appointment, get_availabilities_by_date_range] at h
  split at h
  · simp at h
  · split at h
    · simp at h
    · split at h
      · simp at h
      · split at h
        · simp at h
        · simp at h

lemma stateWithUpdated_distinct (st : State) (aid : Nat)
    (inp : AppointmentUpdate) (today : Nat)
    (h : DistinctIds st.appointments) :
    DistinctIds (stateWithUpdated st aid inp today).appointments := by
  unfold DistinctIds stateWithUpdated at *
  rw [map_ids_eq (fun a => by split <;> rfl)]
  exact h

/-- A row update with no date, time or status fields preserves every
projection compat reads. -/
lemma applyUpdate_projections (x : Appointment) (inp : AppointmentUpdate)
    (today : Nat) (hstatus : inp.status = none) (hd : inp.date = none)
    (hs : inp.start_time = none) (he : inp.end_time = none) :
    (applyUpdate x inp today).id = x.id ∧
    (applyUpdate x inp today).nutritionist_id = x.nutritionist_id ∧
    (applyUpdate x inp today).date = x.date ∧
    (applyUpdate x inp today).start_time = x.start_time ∧
    (applyUpdate x inp today).end_time = x.end_time ∧
    (applyUpdate x inp today).status = x.status := by
  simp [applyUpdate, hstatus, hd, hs, he]

/-- An accepted update whose body has no status field preserves the
invariant: an update touching date/start/end is never accepted at all
(it fails at the availability fetch after the earlier checks), and an
update with none of those fields rewrites only notes and updated_at,
which compat does not read. -/
lemma update_preserves_invariant (st : State) (u : User) (aid : Nat)
    (inp : AppointmentUpdate) (now : Nat × Nat) (today : Nat)
    (st' : State) (hstatus : inp.status = none)
    (hinv : SchedInvariant st)
    (h : update_appointment st u aid inp now today = Except.ok st') :
    SchedInvariant st' := by
  simp only [update_appointment, get_availabilities_by_date_range] at h
  split at h
  · exact absurd h (by simp)
  · rename_i appointment hfind
    split at h
    · exact absurd h (by simp)
    · split at h
      case isTrue htime =>
        split at h
        · exact absurd h (by simp)
        · split at h
          · exact absurd h (by simp)
          · split at h
            · exact absurd h (by simp)
            · exact absurd h (by simp)
      case isFalse htime =>
        rw [Except.ok.injEq] at h
        subst h
        have hd : inp.date = none := by
          cases hdc : inp.date
          · rfl
          · rw [hdc] at htime
            simp at htime
        have hs : inp.start_time = none := by
          cases hsc : inp.start_time
          · rfl
          · rw [hsc] at htime
            simp at htime
        have he : inp.end_time = none := by
          cases hec : inp.end_time
          · rfl
          · rw [hec] at htime
            simp at htime
        refine ⟨stateWithUpdated_distinct st aid inp today hinv.1, ?_⟩
        intro a' ha' b' hb'
        simp only [stateWithUpdated, List.mem_map] at ha' hb'
        obtain ⟨a, ha, rfl⟩ := ha'
        obtain ⟨b, hb, rfl⟩ := hb'
        have hproj : ∀ x : Appointment,
            ((if (x.id == aid) = true then applyUpdate x inp today
              else x).id = x.id) ∧
            ((if (x.id == aid) = true then applyUpdate x inp today
              else x).nutritionist_id = x.nutritionist_id) ∧
            ((if (x.id == aid) = true then applyUpdate x inp today
              else x).date = x.date) ∧
            ((if (x.id == aid) = true then applyUpdate x inp today
              else x).start_time = x.start_time) ∧
            ((if (x.id == aid) = true then applyUpdate x inp today
              else x).end_time = x.end_time) ∧
            ((if (x.id == aid) = true then applyUpdate x inp today
              else x).status = x.status) := by
          intro x
          split
          · exact applyUpdate_projections x inp today hstatus hd hs he
          · exact ⟨rfl, rfl, rfl, rfl, rfl, rfl⟩
        exact compat_congr (hproj a).1 (hproj a).2.1 (hproj a).2.2.1
          (hproj a).2.2.2.1 (hproj a).2.2.2.2.1 (hproj a).2.2.2.2.2
          (hproj b).1 (hproj b).2.1 (hproj b).2.2.1
          (hproj b).2.2.2.1 (hproj b).2.2.2.2.1 (hproj b).2.2.2.2.2
          (hinv.2 a ha b hb)

lemma step_preserves_invariant (st : State) (op : Op) (st' : State)
    (hgood : opGood op = true) (hinv : SchedInvariant st)
    (h : step st op = Except.ok st') : SchedInvariant st' := by
  cases op with
  | createOp u inp now new_id today =>
    exact absurd h (create_never_ok st u inp now new_id today st')
  | updateOp u aid inp now today =>
    exact update_preserves_invariant st u aid inp now today st'
      (by simpa [opGood, Option.isNone_iff_eq_none] using hgood) hinv h
  | cancelOp u aid today =>
    exact cancel_preserves_invariant st u aid today st' hinv h

/-- C1 (amended): starting from any database state satisfying the
invariant (distinct row ids and no overlapping Scheduled pair per
nutritionist and date), every fully accepted sequence of create, update
and cancel operations in which no update body carries the status field
reaches only states where no two distinct Scheduled appointments of one
nutritionist and date overlap. In the current code an accepted run can
in fact contain no creates and no date/time updates at all — both
always fail at the broken availability fetch — so accepted operations
are cancels and updates of the remaining fields; the status field must
be excluded because the counterexample's status-only update resurrects
a Cancelled appointment into an occupied slot with no re-validation. -/
theorem scheduled_no_overlap_invariant (st : State) (ops : List Op)
    (st' : State) (hinv : SchedInvariant st)
    (hgood : ops.all opGood = true) (h : run st ops = some st') :
    SchedOverlapFree st'.appointments := by
  induction ops generalizing st with
  | nil =>
    unfold run at h
    rw [Option.some.injEq] at h
    subst h
    exact hinv.2
  | cons op rest ih =>
    unfold run at h
    rw [List.all_cons, Bool.and_eq_true] at hgood
    obtain ⟨hg1, hg2⟩ := hgood
    cases hstep : step st op with
    | error e =>
      rw [hstep] at h
      exact absurd h (by simp)
    | ok st1 =>
      rw [hstep] at h
      exact ih st1 (step_preserves_invariant st op st1 hg1 hinv hstep)
        hg2 h

/-- Witness for C1 (amended): cancelling the Scheduled row of the
counterexample's initial state is a fully accepted status-free run, and
the resulting state (both rows Cancelled) keeps the no-overlap
property. -/
theorem scheduled_no_overlap_invariant_witness :
    SchedOverlapFree
      ((⟨[nutriUser, clientUser],
         [⟨100, 2, 1, 7, 600, 660, AppointmentStatus.cancelled, none, 3⟩,
          ⟨101, 2, 1, 7, 630, 690, AppointmentStatus.cancelled, none, 0⟩],
         [⟨10, 1, some 0, 480, 1080, true, none, 0⟩]⟩ : State)).appointments :=
  scheduled_no_overlap_invariant c1InitState
    [Op.cancelOp clientUser 100 3]
    _ (by decide) (by decide) (by decide)

end NutriSched
